import Mathlib

/-!
Verification development for the `portfolio-ops-dashboard` backend.

Shallow embedding of `src/backend/db.py`, `src/backend/ingest.py` and
`src/backend/config.py`.  Conventions:

* ISO-8601 UTC timestamp strings are stored as SQLite TEXT and compared
  lexicographically, which agrees with chronological order; they are modelled
  as `Nat`.
* SQLite REAL values are modelled as `ℚ`.
* A SQLite table is a list of rows; `AUTOINCREMENT` ids are plain `Nat`s.
-/

namespace PortfolioOps

/-- Value of one float-valued attribute as handed over by the yfinance
adapter: `vNone` models Python `None` (attribute absent), `vNaN` a float NaN,
`vNum q` an ordinary number. -/
inductive YVal
  | vNone
  | vNaN
  | vNum (q : ℚ)
deriving DecidableEq

/-- Whether a `YVal` is a float NaN. -/
def YVal.isNaN : YVal → Bool
  | .vNaN => true
  | _ => false

/-- Numeric content of a `YVal` (`none` for Python `None` and for NaN). -/
def YVal.toOpt : YVal → Option ℚ
  | .vNum q => some q
  | _ => none

/-- Fields of `yf.Ticker(t).fast_info` read by `fetch_single_ticker`
(src/backend/ingest.py).  The attribute the source reads as `fi.open` is
named `day_open` here because `open` is a Lean keyword.  `regularMarketTime`
is the already-converted ISO-8601 timestamp (modelled as `Nat`), or `none`
when unavailable. -/
structure FastInfo where
  last_price : YVal
  previous_close : YVal
  last_volume : YVal
  day_open : YVal
  day_high : YVal
  day_low : YVal
  regularMarketTime : Option Nat
deriving DecidableEq

/-- Outcome of one `yf.Ticker(ticker)` / `fast_info` access: the adapter
either raises some `Exception` (caught by the `try` in
`fetch_single_ticker`) or yields a `FastInfo`. -/
inductive AdapterResult
  | raises
  | ok (fi : FastInfo)
deriving DecidableEq

/-- Result dict of `fetch_single_ticker` (src/backend/ingest.py, lines
58-66).  The float-valued fields keep type `YVal` so that absence of NaN is a
provable property of the code path, not an artefact of the embedding. -/
structure TickerData where
  price : YVal
  prev_close : YVal
  volume : YVal
  day_open : YVal
  day_high : YVal
  day_low : YVal
  market_time : Option Nat
deriving DecidableEq

/-- Embeds `_sanitize` from `fetch_single_ticker` (src/backend/ingest.py,
lines 33-36): a float NaN becomes `None`; everything else passes through. -/
def sanitize : YVal → YVal
  | .vNaN => .vNone
  | v => v

/-- Embeds `fetch_single_ticker` (src/backend/ingest.py, lines 11-69) as a
function of the adapter outcome.  A raising adapter gives `none` (the
catch-all `except`); a `None` or NaN `last_price` gives `none`; otherwise
the optional fields are passed through `_sanitize` and the result dict is
built.  The `market_time` conversion to an ISO string is modelled as the
already-converted timestamp. -/
def fetch_single_ticker : AdapterResult → Option TickerData
  | .raises => none
  | .ok fi =>
    match fi.last_price with
    | .vNone => none
    | .vNaN => none
    | .vNum p =>
      some { price := .vNum p
             prev_close := sanitize fi.previous_close
             volume := sanitize fi.last_volume
             day_open := sanitize fi.day_open
             day_high := sanitize fi.day_high
             day_low := sanitize fi.day_low
             market_time := fi.regularMarketTime }

/-- Insertion into a Python dict modelled as an association list: an existing
key keeps its position and gets the new value, a new key is appended. -/
def dictInsert {β : Type} (k : String) (v : β) : List (String × β) → List (String × β)
  | [] => [(k, v)]
  | (k0, v0) :: rest =>
    if k0 = k then (k0, v) :: rest else (k0, v0) :: dictInsert k v rest

/-- Lookup in a Python dict modelled as an association list. -/
def dictLookup {β : Type} (k : String) : List (String × β) → Option β
  | [] => none
  | (k0, v0) :: rest => if k0 = k then some v0 else dictLookup k rest

/-- Loop body of `fetch_prices` (src/backend/ingest.py, lines 81-87): a
`None` result appends the ticker to `failed`, otherwise the result dict is
stored under the ticker. -/
def fetchStep (beh : String → AdapterResult)
    (acc : List (String × TickerData) × List String) (ticker : String) :
    List (String × TickerData) × List String :=
  match fetch_single_ticker (beh ticker) with
  | none => (acc.1, acc.2 ++ [ticker])
  | some result => (dictInsert ticker result acc.1, acc.2)

/-- Embeds `fetch_prices` (src/backend/ingest.py, lines 72-89): sequential
fold of `fetchStep` over the ticker list, starting from an empty results
dict and an empty failed list.  `beh` gives each ticker's adapter outcome. -/
def fetch_prices (beh : String → AdapterResult) (tickers : List String) :
    List (String × TickerData) × List String :=
  tickers.foldl (fetchStep beh) ([], [])

/-! Data model of the six tables created by `create_tables`
(src/backend/db.py, lines 13-100). -/

/-- Row of `price_snapshots` (src/backend/db.py, lines 16-28). -/
structure PriceRow where
  id : Nat
  ticker : String
  fetched_at : Nat
  market_time : Option Nat
  price : ℚ
  volume : Option ℚ
  day_open : Option ℚ
  day_high : Option ℚ
  day_low : Option ℚ
  prev_close : Option ℚ
  data_source : String
deriving DecidableEq

/-- Row of `nav_snapshots` (src/backend/db.py, lines 30-37). -/
structure NavRow where
  id : Nat
  computed_at : Nat
  total_nav : ℚ
  total_cost : ℚ
  total_pnl : ℚ
  total_pnl_pct : ℚ
deriving DecidableEq

/-- Row of `position_snapshots` (src/backend/db.py, lines 39-51). -/
structure PositionRow where
  id : Nat
  nav_snapshot_id : Nat
  ticker : String
  asset_class : String
  shares : ℚ
  price : ℚ
  cost_basis : ℚ
  market_value : ℚ
  unrealized_pnl : ℚ
  pnl_pct : ℚ
  weight : ℚ
deriving DecidableEq

/-- Row of `recon_log` (src/backend/db.py, lines 53-62). -/
structure ReconRow where
  id : Nat
  checked_at : Nat
  check_type : String
  expected_value : Option ℚ
  actual_value : Option ℚ
  delta_pct : Option ℚ
  status : String
  detail : Option String
deriving DecidableEq

/-- Row of `anomaly_log` (src/backend/db.py, lines 64-74). -/
structure AnomalyRow where
  id : Nat
  detected_at : Nat
  ticker : String
  asset_class : String
  current_price : ℚ
  prev_close : ℚ
  move_pct : ℚ
  zscore : ℚ
  severity : String
deriving DecidableEq

/-- Row of `system_metrics` (src/backend/db.py, lines 76-86). -/
structure MetricsRow where
  id : Nat
  cycle_at : Nat
  status : String
  error_detail : Option String
  ingestion_latency_ms : Option ℚ
  db_write_latency_ms : Option ℚ
  total_rows_processed : Option Nat
  tickers_succeeded : Option Nat
  tickers_failed : Option Nat
deriving DecidableEq

/-- State of the SQLite database: the six tables, each a list of rows in
insertion order. -/
structure DBState where
  price_snapshots : List PriceRow
  nav_snapshots : List NavRow
  position_snapshots : List PositionRow
  recon_log : List ReconRow
  anomaly_log : List AnomalyRow
  system_metrics : List MetricsRow
deriving DecidableEq

/-! Read accessors of `src/backend/db.py`.  The SQL queries project specific
columns; the embedding returns whole rows, which carries strictly more
information and does not affect any verified property. -/

/-- Subquery `SELECT ticker, MAX(fetched_at) FROM price_snapshots GROUP BY
ticker`, restricted to one ticker group: the maximal `fetched_at` among that
ticker's rows, `⊥` when the ticker has no rows. -/
def maxFetchedAt (db : DBState) (ticker : String) : WithBot Nat :=
  ((db.price_snapshots.filter (fun r => r.ticker == ticker)).map
    (fun r => r.fetched_at)).maximum

/-- Embeds `get_latest_prices` (src/backend/db.py, lines 103-117): the rows
whose `(ticker, fetched_at)` pair lies in the grouped `MAX(fetched_at)`
table, collected into a Python dict keyed by ticker (a later row with the
same ticker overwrites the earlier entry). -/
def get_latest_prices (db : DBState) : List (String × PriceRow) :=
  (db.price_snapshots.filter
      (fun r => decide (maxFetchedAt db r.ticker = (r.fetched_at : WithBot Nat)))).foldl
    (fun m r => dictInsert r.ticker r m) []

/-- Descending `computed_at` comparison used by `ORDER BY computed_at DESC`
on `nav_snapshots`. -/
def navDesc (a b : NavRow) : Prop := b.computed_at ≤ a.computed_at

instance : DecidableRel navDesc := fun a b =>
  inferInstanceAs (Decidable (b.computed_at ≤ a.computed_at))

instance : IsTotal NavRow navDesc :=
  ⟨fun a b => le_total b.computed_at a.computed_at⟩

instance : IsTrans NavRow navDesc :=
  ⟨fun _ _ _ h1 h2 => le_trans h2 h1⟩

/-- Embeds `get_nav_history` (src/backend/db.py, lines 120-133):
`ORDER BY computed_at DESC LIMIT n`, then `None` when no row came back,
otherwise the reversed (ascending) list. -/
def get_nav_history (n : Nat) (db : DBState) : Option (List NavRow) :=
  let rows := (List.insertionSort navDesc db.nav_snapshots).take n
  if rows.isEmpty then none else some rows.reverse

/-- Embeds `get_nav_current` (src/backend/db.py, lines 136-152): the first
row of `ORDER BY computed_at DESC LIMIT 1` plus the position rows with its
`nav_snapshot_id`. -/
def get_nav_current (db : DBState) : Option (NavRow × List PositionRow) :=
  match (List.insertionSort navDesc db.nav_snapshots).head? with
  | none => none
  | some nav_row =>
    some (nav_row,
      db.position_snapshots.filter (fun p => p.nav_snapshot_id == nav_row.id))

/-- Subquery `(SELECT MAX(id) FROM nav_snapshots)`: SQL `NULL` (here `⊥`) on
an empty table. -/
def maxNavId (db : DBState) : WithBot Nat :=
  (db.nav_snapshots.map (fun r => r.id)).maximum

/-- Rows selected by `WHERE nav_snapshot_id = (SELECT MAX(id) FROM
nav_snapshots)` in `get_asset_class_attribution` and `get_position_detail`.
A `NULL` subquery result matches no row. -/
def latestPositions (db : DBState) : List PositionRow :=
  match maxNavId db with
  | ⊥ => []
  | (m : Nat) => db.position_snapshots.filter (fun p => p.nav_snapshot_id == m)

/-- Descending `market_value` comparison used by `ORDER BY market_value
DESC` in `get_position_detail`. -/
def mvDesc (a b : PositionRow) : Prop := b.market_value ≤ a.market_value

instance : DecidableRel mvDesc := fun a b =>
  inferInstanceAs (Decidable (b.market_value ≤ a.market_value))

instance : IsTotal PositionRow mvDesc :=
  ⟨fun a b => le_total b.market_value a.market_value⟩

instance : IsTrans PositionRow mvDesc :=
  ⟨fun _ _ _ h1 h2 => le_trans h2 h1⟩

/-- Embeds `get_position_detail` (src/backend/db.py, lines 177-191): the
latest-by-`MAX(id)` snapshot's position rows ordered by `market_value`
descending; `None` when the query returns no row. -/
def get_position_detail (db : DBState) : Option (List PositionRow) :=
  let rows := List.insertionSort mvDesc (latestPositions db)
  if rows.isEmpty then none else some rows

/-- Output row of `get_asset_class_attribution` (src/backend/db.py,
lines 158-169). -/
structure AttributionRow where
  asset_class : String
  total_market_value : ℚ
  total_pnl : ℚ
  total_weight : ℚ
  avg_pnl_pct : ℚ
deriving DecidableEq

/-- One `GROUP BY asset_class` aggregate over a list of position rows:
`SUM(market_value)`, `SUM(unrealized_pnl)`, `SUM(weight)`, `AVG(pnl_pct)`. -/
def attributionGroup (ps : List PositionRow) (cls : String) : AttributionRow :=
  let grp := ps.filter (fun p => p.asset_class == cls)
  { asset_class := cls
    total_market_value := (grp.map (fun p => p.market_value)).sum
    total_pnl := (grp.map (fun p => p.unrealized_pnl)).sum
    total_weight := (grp.map (fun p => p.weight)).sum
    avg_pnl_pct := (grp.map (fun p => p.pnl_pct)).sum / (grp.length : ℚ) }

/-- Descending `total_market_value` comparison used by `ORDER BY
total_market_value DESC` in `get_asset_class_attribution`. -/
def attrDesc (a b : AttributionRow) : Prop :=
  b.total_market_value ≤ a.total_market_value

instance : DecidableRel attrDesc := fun a b =>
  inferInstanceAs (Decidable (b.total_market_value ≤ a.total_market_value))

instance : IsTotal AttributionRow attrDesc :=
  ⟨fun a b => le_total b.total_market_value a.total_market_value⟩

instance : IsTrans AttributionRow attrDesc :=
  ⟨fun _ _ _ h1 h2 => le_trans h2 h1⟩

/-- Embeds `get_asset_class_attribution` (src/backend/db.py, lines 155-174):
the latest-by-`MAX(id)` snapshot's position rows grouped by `asset_class`,
aggregated, ordered by `total_market_value` descending; `None` when the
query returns no row. -/
def get_asset_class_attribution (db : DBState) : Option (List AttributionRow) :=
  let ps := latestPositions db
  let classes := (ps.map (fun p => p.asset_class)).dedup
  let rows := List.insertionSort attrDesc (classes.map (attributionGroup ps))
  if rows.isEmpty then none else some rows

/-- Subquery `SELECT check_type, MAX(checked_at) FROM recon_log GROUP BY
check_type`, restricted to one check type: the maximal `checked_at` among
that type's rows, `⊥` when the type has no rows. -/
def maxCheckedAt (db : DBState) (ct : String) : WithBot Nat :=
  ((db.recon_log.filter (fun r => r.check_type == ct)).map
    (fun r => r.checked_at)).maximum

/-- Embeds `get_recon_status` (src/backend/db.py, lines 223-237): the rows
whose `(check_type, checked_at)` pair lies in the grouped `MAX(checked_at)`
table.  The result is a list — rows sharing their group's maximal
`checked_at` are all returned. -/
def get_recon_status (db : DBState) : List ReconRow :=
  db.recon_log.filter
    (fun r => decide (maxCheckedAt db r.check_type = (r.checked_at : WithBot Nat)))

/-- Descending `detected_at` comparison used by `ORDER BY detected_at DESC`
in `get_recent_anomalies`. -/
def detDesc (a b : AnomalyRow) : Prop := b.detected_at ≤ a.detected_at

instance : DecidableRel detDesc := fun a b =>
  inferInstanceAs (Decidable (b.detected_at ≤ a.detected_at))

/-- Embeds `get_recent_anomalies` (src/backend/db.py, lines 209-220):
`ORDER BY detected_at DESC LIMIT n`, returned in descending order. -/
def get_recent_anomalies (n : Nat) (db : DBState) : List AnomalyRow :=
  (List.insertionSort detDesc db.anomaly_log).take n

/-- Descending `cycle_at` comparison used by `ORDER BY cycle_at DESC` in
`get_system_health`. -/
def cycleDesc (a b : MetricsRow) : Prop := b.cycle_at ≤ a.cycle_at

instance : DecidableRel cycleDesc := fun a b =>
  inferInstanceAs (Decidable (b.cycle_at ≤ a.cycle_at))

/-- Embeds `get_system_health` (src/backend/db.py, lines 240-253):
`ORDER BY cycle_at DESC LIMIT n`, then reversed (ascending). -/
def get_system_health (n : Nat) (db : DBState) : List MetricsRow :=
  ((List.insertionSort cycleDesc db.system_metrics).take n).reverse

/-! Helper lemmas about the Python-dict model. -/

lemma dictLookup_dictInsert_self {β : Type} (k : String) (v : β)
    (l : List (String × β)) :
    dictLookup k (dictInsert k v l) = some v := by
  induction l with
  | nil => simp [dictInsert, dictLookup]
  | cons hd tl ih =>
    obtain ⟨k1, v1⟩ := hd
    by_cases h : k1 = k
    · simp [dictInsert, h, dictLookup]
    · simp [dictInsert, h, dictLookup, ih]

lemma dictLookup_dictInsert_ne {β : Type} {k0 k : String} (hne : k0 ≠ k) (v : β)
    (l : List (String × β)) :
    dictLookup k (dictInsert k0 v l) = dictLookup k l := by
  induction l with
  | nil => simp [dictInsert, dictLookup, hne]
  | cons hd tl ih =>
    obtain ⟨k1, v1⟩ := hd
    by_cases h : k1 = k0
    · subst h
      have hk : ¬ k1 = k := fun hh => hne (hh ▸ rfl)
      simp [dictInsert, dictLookup, hk]
    · simp [dictInsert, dictLookup, h, ih]

lemma mem_keys_dictInsert {β : Type} (j k : String) (v : β)
    (l : List (String × β)) :
    j ∈ (dictInsert k v l).map Prod.fst ↔ j = k ∨ j ∈ l.map Prod.fst := by
  induction l with
  | nil => simp [dictInsert]
  | cons hd tl ih =>
    obtain ⟨k1, v1⟩ := hd
    by_cases h : k1 = k
    · subst h
      simp [dictInsert]
    · simp [dictInsert, h, ih]
      tauto

lemma nodupKeys_dictInsert {β : Type} (k : String) (v : β)
    (l : List (String × β)) (h : (l.map Prod.fst).Nodup) :
    ((dictInsert k v l).map Prod.fst).Nodup := by
  induction l with
  | nil => simp [dictInsert]
  | cons hd tl ih =>
    obtain ⟨k1, v1⟩ := hd
    simp only [List.map_cons, List.nodup_cons] at h
    by_cases hk : k1 = k
    · subst hk
      simpa [dictInsert] using h
    · simp only [dictInsert, if_neg hk, List.map_cons, List.nodup_cons]
      refine ⟨?_, ih h.2⟩
      rw [mem_keys_dictInsert]
      push_neg
      exact ⟨hk, h.1⟩

/-! Helper lemmas about the `fetch_prices` fold. -/

lemma fetch_prices_lookup_success (beh : String → AdapterResult)
    (ts : List String) (acc : List (String × TickerData) × List String)
    (t : String) (d : TickerData)
    (hfetch : fetch_single_ticker (beh t) = some d)
    (hacc : dictLookup t acc.1 = some d ∨ t ∈ ts) :
    dictLookup t ((ts.foldl (fetchStep beh) acc).1) = some d := by
  induction ts generalizing acc with
  | nil =>
    rcases hacc with h | h
    · exact h
    · cases h
  | cons hd tl ih =>
    simp only [List.foldl_cons]
    apply ih
    by_cases hht : hd = t
    · subst hht
      left
      simp only [fetchStep]
      rw [hfetch]
      exact dictLookup_dictInsert_self _ _ _
    · rcases hacc with hl | hr
      · left
        simp only [fetchStep]
        cases hfe : fetch_single_ticker (beh hd) with
        | none => exact hl
        | some d2 => simpa [dictLookup_dictInsert_ne hht] using hl
      · rcases List.mem_cons.mp hr with h1 | h2
        · exact absurd h1.symm hht
        · right
          exact h2

lemma fetch_prices_failed_of (beh : String → AdapterResult)
    (ts : List String) (acc : List (String × TickerData) × List String)
    (t : String)
    (hfetch : fetch_single_ticker (beh t) = none)
    (hacc : t ∈ acc.2 ∨ t ∈ ts) :
    t ∈ (ts.foldl (fetchStep beh) acc).2 := by
  induction ts generalizing acc with
  | nil =>
    rcases hacc with h | h
    · exact h
    · cases h
  | cons hd tl ih =>
    simp only [List.foldl_cons]
    apply ih
    by_cases hht : hd = t
    · subst hht
      left
      simp only [fetchStep]
      rw [hfetch]
      simp
    · rcases hacc with hl | hr
      · left
        simp only [fetchStep]
        cases hfe : fetch_single_ticker (beh hd) with
        | none => simpa using Or.inl hl
        | some d2 => exact hl
      · rcases List.mem_cons.mp hr with h1 | h2
        · exact absurd h1.symm hht
        · right
          exact h2

/-- C5: for every ticker list and every behaviour of the per-ticker adapter
(including a raising adapter, absorbed inside `fetch_single_ticker`),
`fetch_prices` returns a `(results, failed)` pair such that every input
ticker appears either as a key of `results` (when its own fetch succeeds,
with exactly its own fetched data — so another ticker's failure never
removes it) or as a member of `failed` (when its own fetch fails). -/
theorem fetch_prices_isolates_failures (beh : String → AdapterResult)
    (tickers : List String) (t : String) (ht : t ∈ tickers) :
    (∀ d, fetch_single_ticker (beh t) = some d →
       dictLookup t (fetch_prices beh tickers).1 = some d) ∧
    (fetch_single_ticker (beh t) = none → t ∈ (fetch_prices beh tickers).2) := by
  constructor
  · intro d hd
    exact fetch_prices_lookup_success beh tickers ([], []) t d hd (Or.inr ht)
  · intro hn
    exact fetch_prices_failed_of beh tickers ([], []) t hn (Or.inr ht)

/-- Concrete adapter data for the C5 witness. -/
def fiW5 : FastInfo :=
  { last_price := .vNum 110, previous_close := .vNum 109, last_volume := .vNum 1000000
    day_open := .vNum 108, day_high := .vNum 111, day_low := .vNum 107
    regularMarketTime := some 1705330800 }

/-- Concrete adapter behaviour for the C5 witness: one ticker raises, the
others succeed. -/
def behW5 : String → AdapterResult :=
  fun s => if s = "BADTICKER" then .raises else .ok fiW5

/-- Expected result dict entry for the C5 witness. -/
def tdW5 : TickerData :=
  { price := .vNum 110, prev_close := .vNum 109, volume := .vNum 1000000
    day_open := .vNum 108, day_high := .vNum 111, day_low := .vNum 107
    market_time := some 1705330800 }

/-- Witness for C5 at a concrete batch: the good ticker keeps its result even
though a neighbouring ticker's adapter raises, and the raising ticker lands
in `failed`. -/
theorem fetch_prices_isolates_failures_witness :
    dictLookup "AAPL" (fetch_prices behW5 ["AAPL", "BADTICKER", "GLD"]).1 = some tdW5 ∧
    "BADTICKER" ∈ (fetch_prices behW5 ["AAPL", "BADTICKER", "GLD"]).2 :=
  ⟨(fetch_prices_isolates_failures behW5 ["AAPL", "BADTICKER", "GLD"] "AAPL"
      (by decide)).1 tdW5 (by decide),
   (fetch_prices_isolates_failures behW5 ["AAPL", "BADTICKER", "GLD"] "BADTICKER"
      (by decide)).2 (by decide)⟩

/-- Sanitised values are never NaN. -/
lemma sanitize_not_nan (v : YVal) : (sanitize v).isNaN = false := by
  cases v <;> rfl

/-- C6: when `fetch_single_ticker` returns a dict, no value in it is a float
NaN; a NaN or absent `last_price` makes the fetch return `None`; and NaN
values of `prev_close`, `volume`, `day_open`, `day_high`, `day_low` are
replaced by `None` in the result. -/
theorem fetch_single_ticker_no_nan (fi : FastInfo) :
    ((fi.last_price = YVal.vNaN ∨ fi.last_price = YVal.vNone) →
       fetch_single_ticker (AdapterResult.ok fi) = none) ∧
    (∀ d, fetch_single_ticker (AdapterResult.ok fi) = some d →
       d.price.isNaN = false ∧ d.prev_close.isNaN = false ∧
       d.volume.isNaN = false ∧ d.day_open.isNaN = false ∧
       d.day_high.isNaN = false ∧ d.day_low.isNaN = false ∧
       (fi.previous_close = YVal.vNaN → d.prev_close = YVal.vNone) ∧
       (fi.last_volume = YVal.vNaN → d.volume = YVal.vNone) ∧
       (fi.day_open = YVal.vNaN → d.day_open = YVal.vNone) ∧
       (fi.day_high = YVal.vNaN → d.day_high = YVal.vNone) ∧
       (fi.day_low = YVal.vNaN → d.day_low = YVal.vNone)) := by
  constructor
  · intro h
    rcases h with h | h <;> simp [fetch_single_ticker, h]
  · intro d hd
    cases hlp : fi.last_price with
    | vNone => simp [fetch_single_ticker, hlp] at hd
    | vNaN => simp [fetch_single_ticker, hlp] at hd
    | vNum p =>
      simp only [fetch_single_ticker, hlp, Option.some.injEq] at hd
      subst hd
      refine ⟨rfl, sanitize_not_nan _, sanitize_not_nan _, sanitize_not_nan _,
        sanitize_not_nan _, sanitize_not_nan _, ?_, ?_, ?_, ?_, ?_⟩ <;>
        (intro h; simp only; rw [h]; rfl)

/-- Concrete adapter data for the C6 witness: a valid price next to NaN
optional fields. -/
def fiW6 : FastInfo :=
  { last_price := .vNum 110, previous_close := .vNaN, last_volume := .vNaN
    day_open := .vNaN, day_high := .vNum 111, day_low := .vNum 107
    regularMarketTime := none }

/-- Result of `fetch_single_ticker` on `fiW6`. -/
def tdW6 : TickerData :=
  { price := .vNum 110, prev_close := .vNone, volume := .vNone
    day_open := .vNone, day_high := .vNum 111, day_low := .vNum 107
    market_time := none }

/-- Concrete adapter data for the C6 witness with a NaN price. -/
def fiW6nan : FastInfo :=
  { last_price := .vNaN, previous_close := .vNum 109, last_volume := .vNum 5
    day_open := .vNum 108, day_high := .vNum 111, day_low := .vNum 107
    regularMarketTime := none }

/-- Witness for C6 at concrete adapter data: NaN optional fields are
sanitised away, and a NaN price fails the fetch. -/
theorem fetch_single_ticker_no_nan_witness :
    (tdW6.price.isNaN = false ∧ tdW6.prev_close.isNaN = false ∧
     tdW6.volume.isNaN = false ∧ tdW6.day_open.isNaN = false ∧
     tdW6.day_high.isNaN = false ∧ tdW6.day_low.isNaN = false ∧
     (fiW6.previous_close = YVal.vNaN → tdW6.prev_close = YVal.vNone) ∧
     (fiW6.last_volume = YVal.vNaN → tdW6.volume = YVal.vNone) ∧
     (fiW6.day_open = YVal.vNaN → tdW6.day_open = YVal.vNone) ∧
     (fiW6.day_high = YVal.vNaN → tdW6.day_high = YVal.vNone) ∧
     (fiW6.day_low = YVal.vNaN → tdW6.day_low = YVal.vNone)) ∧
    fetch_single_ticker (AdapterResult.ok fiW6nan) = none :=
  ⟨(fetch_single_ticker_no_nan fiW6).2 tdW6 (by decide),
   (fetch_single_ticker_no_nan fiW6nan).1 (Or.inl (by decide))⟩

/-! Lemmas about the dict built by `get_latest_prices`. -/

lemma nodupKeys_foldl_insert (l : List PriceRow)
    (m : List (String × PriceRow)) (h : (m.map Prod.fst).Nodup) :
    (((l.foldl (fun m r => dictInsert r.ticker r m) m)).map Prod.fst).Nodup := by
  induction l generalizing m with
  | nil => exact h
  | cons hd tl ih =>
    simp only [List.foldl_cons]
    exact ih _ (nodupKeys_dictInsert _ _ _ h)

lemma dictLookup_foldl_insert (l : List PriceRow)
    (m : List (String × PriceRow)) (t : String) (r : PriceRow)
    (h : dictLookup t (l.foldl (fun m r => dictInsert r.ticker r m) m) = some r) :
    (r ∈ l ∧ r.ticker = t) ∨ dictLookup t m = some r := by
  induction l generalizing m with
  | nil => exact Or.inr h
  | cons hd tl ih =>
    simp only [List.foldl_cons] at h
    rcases ih _ h with ⟨hmem, ht⟩ | hlook
    · exact Or.inl ⟨List.mem_cons_of_mem _ hmem, ht⟩
    · by_cases hht : hd.ticker = t
      · subst hht
        rw [dictLookup_dictInsert_self] at hlook
        obtain rfl : hd = r := by injection hlook
        exact Or.inl ⟨List.mem_cons_self _ _, rfl⟩
      · rw [dictLookup_dictInsert_ne hht] at hlook
        exact Or.inr hlook

/-- C9: `get_latest_prices` returns at most one entry per ticker — the dict
keys are pairwise distinct even when several rows of a ticker tie on the
maximal `fetched_at` — and each returned entry is one of that ticker's rows
achieving its maximal `fetched_at`. -/
theorem get_latest_prices_unique_and_latest (db : DBState) :
    ((get_latest_prices db).map Prod.fst).Nodup ∧
    ∀ t r, dictLookup t (get_latest_prices db) = some r →
      r.ticker = t ∧ r ∈ db.price_snapshots ∧
      maxFetchedAt db t = (r.fetched_at : WithBot Nat) := by
  constructor
  · exact nodupKeys_foldl_insert _ [] (by simp)
  · intro t r h
    rcases dictLookup_foldl_insert _ [] t r h with ⟨hmem, ht⟩ | hl
    · have hfilter := List.mem_filter.mp hmem
      refine ⟨ht, hfilter.1, ?_⟩
      have hmax := of_decide_eq_true hfilter.2
      rw [← ht]
      exact hmax
    · simp [dictLookup] at hl

/-- Price row used by the C9 witness: older AAPL row. -/
def prW9a : PriceRow :=
  { id := 1, ticker := "AAPL", fetched_at := 1, market_time := none, price := 90
    volume := none, day_open := none, day_high := none, day_low := none
    prev_close := none, data_source := "yfinance" }

/-- Price row used by the C9 witness: first AAPL row at the maximal
`fetched_at`. -/
def prW9b : PriceRow :=
  { id := 2, ticker := "AAPL", fetched_at := 2, market_time := none, price := 110
    volume := none, day_open := none, day_high := none, day_low := none
    prev_close := none, data_source := "yfinance" }

/-- Price row used by the C9 witness: second AAPL row tying the maximal
`fetched_at`. -/
def prW9c : PriceRow :=
  { id := 3, ticker := "AAPL", fetched_at := 2, market_time := none, price := 111
    volume := none, day_open := none, day_high := none, day_low := none
    prev_close := none, data_source := "yfinance" }

/-- Database for the C9 witness: one ticker with a stale row and two rows
tying its maximal `fetched_at`. -/
def dbW9 : DBState :=
  { price_snapshots := [prW9a, prW9b, prW9c], nav_snapshots := []
    position_snapshots := [], recon_log := [], anomaly_log := []
    system_metrics := [] }

/-- Witness for C9 at a concrete database with a `fetched_at` tie: the entry
served for AAPL is a genuine row achieving the maximal timestamp. -/
theorem get_latest_prices_unique_and_latest_witness :
    prW9c.ticker = "AAPL" ∧ prW9c ∈ dbW9.price_snapshots ∧
    maxFetchedAt dbW9 "AAPL" = (prW9c.fetched_at : WithBot Nat) :=
  (get_latest_prices_unique_and_latest dbW9).2 "AAPL" prW9c (by decide)

/-! C7: `get_nav_history`. -/

/-- Database with exactly one NAV snapshot, for the C7 counterexample. -/
def dbC7 : DBState :=
  { price_snapshots := []
    nav_snapshots := [{ id := 1, computed_at := 10, total_nav := 3300
                        total_cost := 3000, total_pnl := 300
                        total_pnl_pct := 1/10 }]
    position_snapshots := [], recon_log := [], anomaly_log := []
    system_metrics := [] }

/-- Counterexample to C7 as stated: with one stored snapshot (`k = 1 > 0`)
and `n = 0`, `get_nav_history` returns `None` (SQL `LIMIT 0` yields no rows
and the accessor maps an empty result to `None`), not a list of
`min(0, 1) = 0` snapshots. -/
theorem get_nav_history_counterexample :
    0 < dbC7.nav_snapshots.length ∧
    ¬ ∃ l, get_nav_history 0 dbC7 = some l ∧
        l.length = min 0 dbC7.nav_snapshots.length := by
  refine ⟨by decide, ?_⟩
  rintro ⟨l, hl, -⟩
  rw [show get_nav_history 0 dbC7 = none from rfl] at hl
  cases hl

/-- C7 (amended: for `n ≥ 1`): with `k > 0` stored NAV snapshots,
`get_nav_history n` returns exactly `min n k` snapshots, sorted ascending by
`computed_at`, and they dominate all omitted snapshots in `computed_at`. -/
theorem get_nav_history_spec (n : Nat) (db : DBState) (hn : 1 ≤ n)
    (hk : 0 < db.nav_snapshots.length) :
    ∃ l, get_nav_history n db = some l ∧
      l.length = min n db.nav_snapshots.length ∧
      (l.map NavRow.computed_at).Sorted (· ≤ ·) ∧
      ∃ rest, (l ++ rest).Perm db.nav_snapshots ∧
        ∀ x ∈ l, ∀ y ∈ rest, y.computed_at ≤ x.computed_at := by
  have hperm := List.perm_insertionSort navDesc db.nav_snapshots
  have hsorted : List.Pairwise navDesc (List.insertionSort navDesc db.nav_snapshots) :=
    List.sorted_insertionSort navDesc db.nav_snapshots
  have hlen : (List.insertionSort navDesc db.nav_snapshots).length
      = db.nav_snapshots.length := hperm.length_eq
  have hmin1 : 1 ≤ min n db.nav_snapshots.length := le_min hn hk
  have htl : ((List.insertionSort navDesc db.nav_snapshots).take n).length
      = min n db.nav_snapshots.length := by
    rw [List.length_take, hlen]
  have hne : ((List.insertionSort navDesc db.nav_snapshots).take n).isEmpty = false := by
    cases hcase : (List.insertionSort navDesc db.nav_snapshots).take n with
    | nil =>
      rw [hcase] at htl
      simp at htl
      omega
    | cons a tl => rfl
  have hpair : List.Pairwise navDesc
      ((List.insertionSort navDesc db.nav_snapshots).take n) :=
    hsorted.sublist (List.take_sublist n _)
  have hcross := (List.pairwise_append.mp
    (by rw [List.take_append_drop n (List.insertionSort navDesc db.nav_snapshots)]
        exact hsorted)).2.2
  refine ⟨((List.insertionSort navDesc db.nav_snapshots).take n).reverse, ?_, ?_, ?_,
    (List.insertionSort navDesc db.nav_snapshots).drop n, ?_, ?_⟩
  · show (if ((List.insertionSort navDesc db.nav_snapshots).take n).isEmpty then none
        else some ((List.insertionSort navDesc db.nav_snapshots).take n).reverse) = _
    rw [hne]
    rfl
  · rw [List.length_reverse, htl]
  · rw [List.map_reverse]
    show List.Pairwise (· ≤ ·)
      (List.map NavRow.computed_at
        (List.take n (List.insertionSort navDesc db.nav_snapshots))).reverse
    rw [List.pairwise_reverse, List.pairwise_map]
    exact hpair
  · have h1 : (((List.insertionSort navDesc db.nav_snapshots).take n).reverse ++
        (List.insertionSort navDesc db.nav_snapshots).drop n).Perm
        ((List.insertionSort navDesc db.nav_snapshots).take n ++
          (List.insertionSort navDesc db.nav_snapshots).drop n) :=
      (List.reverse_perm _).append_right _
    have h2 : (List.insertionSort navDesc db.nav_snapshots).take n ++
        (List.insertionSort navDesc db.nav_snapshots).drop n =
        List.insertionSort navDesc db.nav_snapshots := List.take_append_drop _ _
    exact (h2 ▸ h1).trans hperm
  · intro x hx y hy
    exact hcross x (List.mem_reverse.mp hx) y hy

/-- Database with two NAV snapshots, for the C7 witness. -/
def dbW7 : DBState :=
  { price_snapshots := []
    nav_snapshots := [{ id := 1, computed_at := 10, total_nav := 3300
                        total_cost := 3000, total_pnl := 300
                        total_pnl_pct := 1/10 },
                      { id := 2, computed_at := 20, total_nav := 3400
                        total_cost := 3000, total_pnl := 400
                        total_pnl_pct := 2/15 }]
    position_snapshots := [], recon_log := [], anomaly_log := []
    system_metrics := [] }

/-- Witness for the amended C7 at `n = 1` on a two-snapshot database. -/
theorem get_nav_history_spec_witness :
    ∃ l, get_nav_history 1 dbW7 = some l ∧
      l.length = min 1 dbW7.nav_snapshots.length ∧
      (l.map NavRow.computed_at).Sorted (· ≤ ·) ∧
      ∃ rest, (l ++ rest).Perm dbW7.nav_snapshots ∧
        ∀ x ∈ l, ∀ y ∈ rest, y.computed_at ≤ x.computed_at :=
  get_nav_history_spec 1 dbW7 (by decide) (by decide)

/-! C8: `None` versus empty list on a database without data. -/

/-- C8: when no NAV snapshot exists, the four NAV-derived accessors return
`None`; when their tables are empty, the log accessors return an empty
list. -/
theorem accessors_distinguish_empty (db : DBState) :
    (db.nav_snapshots = [] →
       get_nav_current db = none ∧ (∀ n, get_nav_history n db = none) ∧
       get_asset_class_attribution db = none ∧ get_position_detail db = none) ∧
    (db.recon_log = [] → get_recon_status db = []) ∧
    (db.anomaly_log = [] → ∀ n, get_recent_anomalies n db = []) ∧
    (db.system_metrics = [] → ∀ n, get_system_health n db = []) := by
  obtain ⟨ps, ns, pos, rl, al, sm⟩ := db
  refine ⟨?_, ?_, ?_, ?_⟩
  · intro h
    cases h
    refine ⟨rfl, ?_, rfl, rfl⟩
    intro n
    show (if (List.take n ([] : List NavRow)).isEmpty then none
        else some (List.take n ([] : List NavRow)).reverse) = none
    rw [List.take_nil]
    rfl
  · intro h
    cases h
    rfl
  · intro h n
    cases h
    show List.take n ([] : List AnomalyRow) = []
    exact List.take_nil
  · intro h n
    cases h
    show (List.take n ([] : List MetricsRow)).reverse = []
    rw [List.take_nil]
    rfl

/-- Database with all six tables empty, for the C8 witness. -/
def emptyDB : DBState :=
  { price_snapshots := [], nav_snapshots := [], position_snapshots := []
    recon_log := [], anomaly_log := [], system_metrics := [] }

/-- Witness for C8 on the all-empty database at the accessors' default
limits. -/
theorem accessors_distinguish_empty_witness :
    get_nav_current emptyDB = none ∧ get_nav_history 50 emptyDB = none ∧
    get_asset_class_attribution emptyDB = none ∧
    get_position_detail emptyDB = none ∧ get_recon_status emptyDB = [] ∧
    get_recent_anomalies 20 emptyDB = [] ∧ get_system_health 30 emptyDB = [] :=
  have h := accessors_distinguish_empty emptyDB
  ⟨(h.1 rfl).1, (h.1 rfl).2.1 50, (h.1 rfl).2.2.1, (h.1 rfl).2.2.2,
   h.2.1 rfl, h.2.2.1 rfl 20, h.2.2.2 rfl 30⟩

/-! C3: `get_recon_status`. -/

/-- Every row returned by `get_recon_status` is a `recon_log` row achieving
the maximal `checked_at` of its check type. -/
lemma recon_result_achieves_max (db : DBState) (r : ReconRow)
    (hr : r ∈ get_recon_status db) :
    r ∈ db.recon_log ∧ maxCheckedAt db r.check_type = (r.checked_at : WithBot Nat) := by
  have h := List.mem_filter.mp hr
  exact ⟨h.1, of_decide_eq_true h.2⟩

/-- Every check type present in `recon_log` contributes at least one row to
`get_recon_status`, achieving the type's maximal `checked_at`. -/
lemma recon_exists_latest (db : DBState) (r : ReconRow) (hr : r ∈ db.recon_log) :
    ∃ s ∈ get_recon_status db, s.check_type = r.check_type ∧
      maxCheckedAt db r.check_type = (s.checked_at : WithBot Nat) := by
  have hgrp : r ∈ db.recon_log.filter (fun x => x.check_type == r.check_type) :=
    List.mem_filter.mpr ⟨hr, by simp⟩
  cases hmc : maxCheckedAt db r.check_type with
  | bot =>
    exfalso
    have hmc2 : ((db.recon_log.filter (fun x => x.check_type == r.check_type)).map
        (fun x => x.checked_at)).maximum = ⊥ := hmc
    rw [List.maximum_eq_bot] at hmc2
    have hnil := List.map_eq_nil_iff.mp hmc2
    rw [hnil] at hgrp
    cases hgrp
  | coe m =>
    have hmem := List.maximum_mem hmc
    obtain ⟨s, hsgrp, hseq⟩ := List.mem_map.mp hmem
    have hs := List.mem_filter.mp hsgrp
    have hstype : s.check_type = r.check_type := by simpa using hs.2
    refine ⟨s, ?_, hstype, ?_⟩
    · refine List.mem_filter.mpr ⟨hs.1, decide_eq_true ?_⟩
      rw [hstype, hmc]
      exact WithBot.coe_eq_coe.mpr hseq.symm
    · exact WithBot.coe_eq_coe.mpr hseq.symm

/-- Database for the C3 counterexample: two `recon_log` rows of the same
check type tying on `checked_at`. -/
def dbC3 : DBState :=
  { price_snapshots := [], nav_snapshots := [], position_snapshots := []
    recon_log := [{ id := 1, checked_at := 5, check_type := "nav_sum"
                    expected_value := some 3300, actual_value := some 3300
                    delta_pct := some 0, status := "PASS", detail := none },
                  { id := 2, checked_at := 5, check_type := "nav_sum"
                    expected_value := some 3300, actual_value := some 3135
                    delta_pct := some 5, status := "BREAK", detail := none }]
    anomaly_log := [], system_metrics := [] }

/-- Counterexample to C3 as stated: when two rows of one check type share
the maximal `checked_at`, `get_recon_status` returns both of them, not
exactly one row for that type. -/
theorem get_recon_status_counterexample :
    (∃ r ∈ dbC3.recon_log, r.check_type = "nav_sum") ∧
    ((get_recon_status dbC3).filter (fun r => r.check_type == "nav_sum")).length = 2 := by
  decide

/-- C3 (amended): `get_recon_status` returns exactly the `recon_log` rows
achieving the maximal `checked_at` of their check type — every returned row
achieves its type's maximum, and conversely every stored row achieving its
type's maximum is returned (so two rows of one type tying the maximum are
both returned) — every check type present in `recon_log` is represented,
and — provided row ids are unique and no two rows of one check type share a
`checked_at` — the returned list has exactly one row per present check
type. -/
theorem get_recon_status_latest_per_type (db : DBState) :
    (∀ r ∈ get_recon_status db,
       r ∈ db.recon_log ∧
       maxCheckedAt db r.check_type = (r.checked_at : WithBot Nat)) ∧
    (∀ r ∈ db.recon_log,
       maxCheckedAt db r.check_type = (r.checked_at : WithBot Nat) →
       r ∈ get_recon_status db) ∧
    (∀ r ∈ db.recon_log, ∃ s ∈ get_recon_status db, s.check_type = r.check_type) ∧
    ((db.recon_log.map (fun r => r.id)).Nodup →
     (∀ r ∈ db.recon_log, ∀ s ∈ db.recon_log,
        r.check_type = s.check_type → r.checked_at = s.checked_at → r = s) →
     ∀ ct, (∃ r ∈ db.recon_log, r.check_type = ct) →
       ((get_recon_status db).filter (fun r => r.check_type == ct)).length = 1) := by
  refine ⟨recon_result_achieves_max db, ?_, ?_, ?_⟩
  · intro r hr hm
    exact List.mem_filter.mpr ⟨hr, decide_eq_true hm⟩
  · intro r hr
    obtain ⟨s, hs_res, hstype, -⟩ := recon_exists_latest db r hr
    exact ⟨s, hs_res, hstype⟩
  · intro hid huniq ct hex
    obtain ⟨r, hr, hct⟩ := hex
    obtain ⟨s, hs_res, hstype, -⟩ := recon_exists_latest db r hr
    have hs_ct : s.check_type = ct := hstype.trans hct
    have hs_mem2 : s ∈ (get_recon_status db).filter (fun x => x.check_type == ct) :=
      List.mem_filter.mpr ⟨hs_res, by simp [hs_ct]⟩
    have hall : ∀ x ∈ (get_recon_status db).filter (fun x => x.check_type == ct),
        ∀ y ∈ (get_recon_status db).filter (fun x => x.check_type == ct), x = y := by
      intro x hx y hy
      have hx' := List.mem_filter.mp hx
      have hy' := List.mem_filter.mp hy
      have hx_ct : x.check_type = ct := by simpa using hx'.2
      have hy_ct : y.check_type = ct := by simpa using hy'.2
      have hxm := recon_result_achieves_max db x hx'.1
      have hym := recon_result_achieves_max db y hy'.1
      have hcoe : (x.checked_at : WithBot Nat) = (y.checked_at : WithBot Nat) := by
        rw [← hxm.2, ← hym.2, hx_ct, hy_ct]
      have hts : x.checked_at = y.checked_at := by exact_mod_cast hcoe
      exact huniq x hxm.1 y hym.1 (hx_ct.trans hy_ct.symm) hts
    have hnodup : ((get_recon_status db).filter (fun x => x.check_type == ct)).Nodup := by
      have hsub : List.Sublist
          ((get_recon_status db).filter (fun x => x.check_type == ct))
          db.recon_log :=
        (List.filter_sublist _).trans (List.filter_sublist _)
      exact (List.Nodup.of_map _ hid).sublist hsub
    cases hcase : (get_recon_status db).filter (fun x => x.check_type == ct) with
    | nil =>
      rw [hcase] at hs_mem2
      cases hs_mem2
    | cons a tl =>
      cases tl with
      | nil => rfl
      | cons b tl2 =>
        exfalso
        rw [hcase] at hall hnodup
        have hab : a = b :=
          hall a (List.mem_cons_self _ _) b
            (List.mem_cons_of_mem _ (List.mem_cons_self _ _))
        rw [List.nodup_cons] at hnodup
        exact hnodup.1 (hab ▸ List.mem_cons_self _ _)

/-- Database for the C3 witness: two check types, distinct timestamps
within each type. -/
def dbW3 : DBState :=
  { price_snapshots := [], nav_snapshots := [], position_snapshots := []
    recon_log := [{ id := 1, checked_at := 1, check_type := "nav_sum"
                    expected_value := some 3300, actual_value := some 3300
                    delta_pct := some 0, status := "PASS", detail := none },
                  { id := 2, checked_at := 2, check_type := "nav_sum"
                    expected_value := some 3300, actual_value := some 3135
                    delta_pct := some 5, status := "BREAK", detail := none },
                  { id := 3, checked_at := 1, check_type := "position_count"
                    expected_value := some 3, actual_value := some 3
                    delta_pct := some 0, status := "PASS", detail := none }]
    anomaly_log := [], system_metrics := [] }

/-- Witness for the amended C3: on the tie-free database exactly one row per
check type is served, and on the tying database both rows achieving the
`nav_sum` maximum are returned. -/
theorem get_recon_status_latest_per_type_witness :
    (((get_recon_status dbW3).filter (fun r => r.check_type == "nav_sum")).length = 1 ∧
     ((get_recon_status dbW3).filter
       (fun r => r.check_type == "position_count")).length = 1) ∧
    ({ id := 1, checked_at := 5, check_type := "nav_sum"
       expected_value := some 3300, actual_value := some 3300
       delta_pct := some 0, status := "PASS", detail := none } : ReconRow)
        ∈ get_recon_status dbC3 ∧
    ({ id := 2, checked_at := 5, check_type := "nav_sum"
       expected_value := some 3300, actual_value := some 3135
       delta_pct := some 5, status := "BREAK", detail := none } : ReconRow)
        ∈ get_recon_status dbC3 :=
  ⟨⟨(get_recon_status_latest_per_type dbW3).2.2.2 (by decide) (by decide) "nav_sum"
      ⟨{ id := 1, checked_at := 1, check_type := "nav_sum"
         expected_value := some 3300, actual_value := some 3300
         delta_pct := some 0, status := "PASS", detail := none }, by decide, rfl⟩,
    (get_recon_status_latest_per_type dbW3).2.2.2 (by decide) (by decide)
      "position_count"
      ⟨{ id := 3, checked_at := 1, check_type := "position_count"
         expected_value := some 3, actual_value := some 3
         delta_pct := some 0, status := "PASS", detail := none }, by decide, rfl⟩⟩,
   (get_recon_status_latest_per_type dbC3).2.1 _ (by decide) (by decide),
   (get_recon_status_latest_per_type dbC3).2.1 _ (by decide) (by decide)⟩

/-! C4: which NAV snapshot `get_position_detail` and
`get_asset_class_attribution` select. -/

/-- With an empty `nav_snapshots` table the `MAX(id)` subquery is NULL and
the position filter selects nothing. -/
lemma latestPositions_eq_bot (db : DBState) (h : maxNavId db = ⊥) :
    latestPositions db = [] := by
  unfold latestPositions
  rw [h]

/-- With a nonempty `nav_snapshots` table the position filter selects the
rows of the snapshot with maximal id. -/
lemma latestPositions_eq_coe (db : DBState) (m : Nat) (h : maxNavId db = ↑m) :
    latestPositions db =
      db.position_snapshots.filter (fun p => p.nav_snapshot_id == m) := by
  unfold latestPositions
  rw [h]
  rfl

/-- Database for the C4 counterexample: the snapshot with the maximal
`computed_at` (id 1) is not the snapshot with the maximal id (id 2) — the
rows were inserted out of chronological order. -/
def dbC4 : DBState :=
  { price_snapshots := []
    nav_snapshots := [{ id := 1, computed_at := 20, total_nav := 100
                        total_cost := 90, total_pnl := 10, total_pnl_pct := 0 },
                      { id := 2, computed_at := 10, total_nav := 50
                        total_cost := 45, total_pnl := 5, total_pnl_pct := 0 }]
    position_snapshots := [{ id := 1, nav_snapshot_id := 1, ticker := "A"
                             asset_class := "equity", shares := 1, price := 100
                             cost_basis := 90, market_value := 100
                             unrealized_pnl := 10, pnl_pct := 0, weight := 1 },
                           { id := 2, nav_snapshot_id := 2, ticker := "B"
                             asset_class := "commodity", shares := 1, price := 50
                             cost_basis := 45, market_value := 50
                             unrealized_pnl := 5, pnl_pct := 0, weight := 1 }]
    recon_log := [], anomaly_log := [], system_metrics := [] }

/-- Counterexample to C4 as stated: in `dbC4` the snapshot with maximal
`computed_at` is the one with id 1, yet `get_position_detail` returns the
position of snapshot id 2 (the query selects by `MAX(id)`, not by maximal
`computed_at`), and `get_asset_class_attribution` aggregates an asset class
that snapshot id 1 does not even contain. -/
theorem latest_by_timestamp_counterexample :
    ((dbC4.nav_snapshots.map (fun r => r.computed_at)).maximum = (20 : Nat)) ∧
    (∀ nv ∈ dbC4.nav_snapshots, nv.computed_at = 20 → nv.id = 1) ∧
    (∃ l, get_position_detail dbC4 = some l ∧ ∃ p ∈ l, p.nav_snapshot_id ≠ 1) ∧
    (∃ l, get_asset_class_attribution dbC4 = some l ∧
       ∃ g ∈ l, ∀ p ∈ dbC4.position_snapshots,
         p.nav_snapshot_id = 1 → p.asset_class ≠ g.asset_class) := by
  decide

/-- C4 (amended: the latest cycle is selected by maximal snapshot id, which
coincides with maximal `computed_at` when snapshots are inserted in
chronological order): with at least one NAV snapshot, every row returned by
`get_position_detail` is a stored position row of the snapshot with maximal
id, ordered by `market_value` descending, and every row returned by
`get_asset_class_attribution` aggregates exactly that snapshot's positions
of its asset class, ordered by `total_market_value` descending, with every
asset class of that snapshot represented. -/
theorem latest_cycle_selected_by_max_id (db : DBState)
    (hk : 0 < db.nav_snapshots.length) :
    (∀ l, get_position_detail db = some l →
       (∀ p ∈ l, (p.nav_snapshot_id : WithBot Nat) = maxNavId db ∧
          p ∈ db.position_snapshots) ∧
       (l.map PositionRow.market_value).Sorted (fun a b => b ≤ a)) ∧
    (∀ l, get_asset_class_attribution db = some l →
       (l.map AttributionRow.total_market_value).Sorted (fun a b => b ≤ a) ∧
       (∀ g ∈ l, g = attributionGroup (latestPositions db) g.asset_class) ∧
       (∀ p ∈ latestPositions db, ∃ g ∈ l, g.asset_class = p.asset_class)) := by
  constructor
  · intro l hl
    have hl' : (if (List.insertionSort mvDesc (latestPositions db)).isEmpty then none
        else some (List.insertionSort mvDesc (latestPositions db))) = some l := hl
    have hl2 : List.insertionSort mvDesc (latestPositions db) = l := by
      cases hb : (List.insertionSort mvDesc (latestPositions db)).isEmpty with
      | true => simp [hb] at hl'
      | false => simpa [hb] using hl'
    constructor
    · intro p hp
      rw [← hl2] at hp
      have hp' : p ∈ latestPositions db := by
        simpa using hp
      cases hm : maxNavId db with
      | bot =>
        rw [latestPositions_eq_bot db hm] at hp'
        cases hp'
      | coe m =>
        rw [latestPositions_eq_coe db m hm] at hp'
        have h2 := List.mem_filter.mp hp'
        have h3 : p.nav_snapshot_id = m := by simpa using h2.2
        exact ⟨by rw [h3]; rfl, h2.1⟩
    · rw [← hl2]
      show List.Pairwise (fun a b => b ≤ a)
        (List.map PositionRow.market_value
          (List.insertionSort mvDesc (latestPositions db)))
      rw [List.pairwise_map]
      exact List.sorted_insertionSort mvDesc (latestPositions db)
  · intro l hl
    have hl' : (if (List.insertionSort attrDesc
          (List.map (attributionGroup (latestPositions db))
            (List.dedup (List.map (fun p => p.asset_class) (latestPositions db))))).isEmpty
        then none
        else some (List.insertionSort attrDesc
          (List.map (attributionGroup (latestPositions db))
            (List.dedup (List.map (fun p => p.asset_class)
              (latestPositions db)))))) = some l := hl
    have hl2 : List.insertionSort attrDesc
        (List.map (attributionGroup (latestPositions db))
          (List.dedup (List.map (fun p => p.asset_class) (latestPositions db)))) = l := by
      cases hb : (List.insertionSort attrDesc
          (List.map (attributionGroup (latestPositions db))
            (List.dedup (List.map (fun p => p.asset_class)
              (latestPositions db))))).isEmpty with
      | true => simp [hb] at hl'
      | false => simpa [hb] using hl'
    refine ⟨?_, ?_, ?_⟩
    · rw [← hl2]
      show List.Pairwise (fun a b => b ≤ a)
        (List.map AttributionRow.total_market_value
          (List.insertionSort attrDesc
            (List.map (attributionGroup (latestPositions db))
              (List.dedup (List.map (fun p => p.asset_class) (latestPositions db))))))
      rw [List.pairwise_map]
      exact List.sorted_insertionSort attrDesc _
    · intro g hg
      rw [← hl2] at hg
      have hg' : g ∈ List.map (attributionGroup (latestPositions db))
          (List.dedup (List.map (fun p => p.asset_class) (latestPositions db))) := by
        simpa using hg
      obtain ⟨cls, -, hgc⟩ := List.mem_map.mp hg'
      rw [← hgc]
      rfl
    · intro p hp
      have hcls : p.asset_class ∈
          List.dedup (List.map (fun p => p.asset_class) (latestPositions db)) :=
        List.mem_dedup.mpr (List.mem_map_of_mem _ hp)
      refine ⟨attributionGroup (latestPositions db) p.asset_class, ?_, rfl⟩
      rw [← hl2]
      simpa using List.mem_map_of_mem (attributionGroup (latestPositions db)) hcls

/-- Position row of the latest (max-id) snapshot for the C4 witness. -/
def psW4a : PositionRow :=
  { id := 3, nav_snapshot_id := 2, ticker := "AAPL", asset_class := "equity"
    shares := 10, price := 110, cost_basis := 100, market_value := 1100
    unrealized_pnl := 100, pnl_pct := 0, weight := 0 }

/-- Second position row of the latest (max-id) snapshot for the C4
witness, with the larger market value. -/
def psW4b : PositionRow :=
  { id := 4, nav_snapshot_id := 2, ticker := "GLD", asset_class := "commodity"
    shares := 10, price := 220, cost_basis := 200, market_value := 2200
    unrealized_pnl := 200, pnl_pct := 0, weight := 0 }

/-- Database for the C4 witness: two chronologically inserted NAV snapshots
and two positions belonging to the later one. -/
def dbW4 : DBState :=
  { price_snapshots := []
    nav_snapshots := [{ id := 1, computed_at := 10, total_nav := 100
                        total_cost := 90, total_pnl := 10, total_pnl_pct := 0 },
                      { id := 2, computed_at := 20, total_nav := 3300
                        total_cost := 3000, total_pnl := 300, total_pnl_pct := 0 }]
    position_snapshots := [psW4a, psW4b]
    recon_log := [], anomaly_log := [], system_metrics := [] }

/-- Witness for the amended C4 on a concrete database: the served position
rows belong to the max-id snapshot and come ordered by `market_value`
descending. -/
theorem latest_cycle_selected_by_max_id_witness :
    ((psW4b.nav_snapshot_id : WithBot Nat) = maxNavId dbW4 ∧
       psW4b ∈ dbW4.position_snapshots) ∧
    ([psW4b, psW4a].map PositionRow.market_value).Sorted (fun a b => b ≤ a) :=
  have h := (latest_cycle_selected_by_max_id dbW4 (by decide)).1 [psW4b, psW4a]
    (by decide)
  ⟨h.1 psW4b (by decide), h.2⟩

/-! C1 and C2: the refresh cycle.  `run_refresh_cycle` in
src/backend/ingest.py (lines 92-97) is an unimplemented stub (it raises
`NotImplementedError`, "implemented in Step 3"), so the orchestrator is
modelled from the spec. -/

/-- One portfolio position of the static configuration
(src/backend/config.py, `PORTFOLIO`). -/
structure PortfolioPosition where
  ticker : String
  shares : ℚ
  cost_basis : ℚ
  asset_class : String
deriving DecidableEq

/-- Per-position record produced by the NAV calculator (spec §4.1 / §3
Position Snapshot shape, before persistence assigns ids). -/
structure NavPositionResult where
  ticker : String
  asset_class : String
  shares : ℚ
  price : ℚ
  cost_basis : ℚ
  market_value : ℚ
  unrealized_pnl : ℚ
  pnl_pct : ℚ
  weight : ℚ
deriving DecidableEq

/-- Result of the NAV calculator (spec §4.1). -/
structure NavResult where
  total_nav : ℚ
  total_cost : ℚ
  total_pnl : ℚ
  total_pnl_pct : ℚ
  positions : List NavPositionResult
deriving DecidableEq

/-- Modelled from the spec: `compute_nav` lives in `kpis.py`, which is not
under `src/` (only `tests/test_kpis.py` references it).  Spec §4.1: tickers
absent from the price map are silently skipped; market_value = shares ×
price; totals range over included positions only; weight = market_value /
total_nav with the zero-NAV guard treating the weight as 0; the zero-cost
guards use the same convention. -/
def compute_nav (prices : List (String × ℚ))
    (portfolio : List PortfolioPosition) : NavResult :=
  let included := portfolio.filterMap
    (fun p => (dictLookup p.ticker prices).map (fun price => (p, price)))
  let total_nav := (included.map (fun x => x.1.shares * x.2)).sum
  let total_cost := (included.map (fun x => x.1.shares * x.1.cost_basis)).sum
  let total_pnl := total_nav - total_cost
  { total_nav := total_nav
    total_cost := total_cost
    total_pnl := total_pnl
    total_pnl_pct := if total_cost = 0 then 0 else total_pnl / total_cost
    positions := included.map (fun x =>
      { ticker := x.1.ticker
        asset_class := x.1.asset_class
        shares := x.1.shares
        price := x.2
        cost_basis := x.1.cost_basis
        market_value := x.1.shares * x.2
        unrealized_pnl := x.1.shares * x.2 - x.1.shares * x.1.cost_basis
        pnl_pct := if (x.1.shares * x.1.cost_basis : ℚ) = 0 then 0
          else (x.1.shares * x.2 - x.1.shares * x.1.cost_basis) /
            (x.1.shares * x.1.cost_basis)
        weight := if total_nav = 0 then 0
          else x.1.shares * x.2 / total_nav }) }

/-- Numeric value of a `YVal`, with 0 for the unreachable non-numeric
cases (a successful fetch always carries a numeric price). -/
def YVal.ratOr0 : YVal → ℚ
  | .vNum q => q
  | _ => 0

/-- One cycle's environment: the configured tickers and portfolio, the
adapter behaviour, whether an exception occurs during COMPUTING or WRITING
(spec §4.4 states 2-3), the cycle timestamp, and the exception text. -/
structure CycleEnv where
  tickers : List String
  beh : String → AdapterResult
  portfolio : List PortfolioPosition
  computeRaises : Bool
  writeRaises : Bool
  now : Nat
  errText : String

/-- Modelled from the spec: `run_refresh_cycle` in src/backend/ingest.py is
a stub, so the orchestrator follows spec §4.4 / §5 / §7.  FETCHING uses the
real `fetch_prices`; an exception in COMPUTING or WRITING rolls the main
transaction back, leaving `price_snapshots`, `nav_snapshots` and
`position_snapshots` unchanged, while RECORD_HEALTH appends exactly one
`system_metrics` row on an independent connection in every case — FAILED
with the exception text on failure, SUCCESS/PARTIAL otherwise.  The
observational RECONCILING and DETECTING stages (which never touch the three
snapshot tables or `system_metrics`) and wall-clock latencies (recorded as
0) are outside the model. -/
def run_refresh_cycle (env : CycleEnv) (db : DBState) : DBState :=
  let fetched := fetch_prices env.beh env.tickers
  let results := fetched.1
  let failedT := fetched.2
  if env.computeRaises || env.writeRaises then
    { db with system_metrics := db.system_metrics ++
        [{ id := db.system_metrics.length + 1
           cycle_at := env.now
           status := "FAILED"
           error_detail := some env.errText
           ingestion_latency_ms := some 0
           db_write_latency_ms := some 0
           total_rows_processed := some 0
           tickers_succeeded := some results.length
           tickers_failed := some failedT.length }] }
  else
    let priceMap : List (String × ℚ) :=
      results.map (fun kv => (kv.1, kv.2.price.ratOr0))
    let nav := compute_nav priceMap env.portfolio
    let nid := db.nav_snapshots.length + 1
    { db with
      price_snapshots := db.price_snapshots ++
        results.map (fun kv =>
          { id := db.price_snapshots.length + 1
            ticker := kv.1
            fetched_at := env.now
            market_time := kv.2.market_time
            price := kv.2.price.ratOr0
            volume := kv.2.volume.toOpt
            day_open := kv.2.day_open.toOpt
            day_high := kv.2.day_high.toOpt
            day_low := kv.2.day_low.toOpt
            prev_close := kv.2.prev_close.toOpt
            data_source := "yfinance" })
      nav_snapshots := db.nav_snapshots ++
        [{ id := nid, computed_at := env.now, total_nav := nav.total_nav
           total_cost := nav.total_cost, total_pnl := nav.total_pnl
           total_pnl_pct := nav.total_pnl_pct }]
      position_snapshots := db.position_snapshots ++
        nav.positions.map (fun p =>
          { id := db.position_snapshots.length + 1
            nav_snapshot_id := nid
            ticker := p.ticker, asset_class := p.asset_class
            shares := p.shares, price := p.price, cost_basis := p.cost_basis
            market_value := p.market_value, unrealized_pnl := p.unrealized_pnl
            pnl_pct := p.pnl_pct, weight := p.weight })
      system_metrics := db.system_metrics ++
        [{ id := db.system_metrics.length + 1
           cycle_at := env.now
           status := if failedT.isEmpty then "SUCCESS" else "PARTIAL"
           error_detail := none
           ingestion_latency_ms := some 0
           db_write_latency_ms := some 0
           total_rows_processed := some results.length
           tickers_succeeded := some results.length
           tickers_failed := some failedT.length }] }

/-- C1 (spec-modelled): every invocation of `run_refresh_cycle` appends
exactly one `system_metrics` row, unconditionally; when an exception occurs
during computing or writing, that row has status FAILED and a populated
`error_detail`, written independently of the rolled-back main
transaction. -/
theorem run_refresh_cycle_always_writes_health (env : CycleEnv) (db : DBState) :
    ∃ m, (run_refresh_cycle env db).system_metrics = db.system_metrics ++ [m] ∧
      ((env.computeRaises || env.writeRaises) = true →
        m.status = "FAILED" ∧ m.error_detail ≠ none) := by
  by_cases h : (env.computeRaises || env.writeRaises) = true
  · exact ⟨_, by simp only [run_refresh_cycle]; rw [if_pos h],
      fun _ => ⟨rfl, by simp⟩⟩
  · exact ⟨_, by simp only [run_refresh_cycle]; rw [if_neg h],
      fun hc => absurd hc h⟩

/-- C2 (spec-modelled): when a failure occurs before the main write
transaction commits, the cycle leaves `price_snapshots`, `nav_snapshots`
and `position_snapshots` exactly as they were — the write set is
all-or-nothing. -/
theorem run_refresh_cycle_rolls_back (env : CycleEnv) (db : DBState)
    (h : env.computeRaises = true ∨ env.writeRaises = true) :
    (run_refresh_cycle env db).price_snapshots = db.price_snapshots ∧
    (run_refresh_cycle env db).nav_snapshots = db.nav_snapshots ∧
    (run_refresh_cycle env db).position_snapshots = db.position_snapshots := by
  have hb : (env.computeRaises || env.writeRaises) = true := by
    rcases h with h | h <;> simp [h]
  unfold run_refresh_cycle
  rw [if_pos hb]
  exact ⟨rfl, rfl, rfl⟩

/-- Cycle environment for the C1 witness: the COMPUTING stage raises. -/
def envW1 : CycleEnv :=
  { tickers := ["AAPL", "GLD"], beh := fun _ => .raises, portfolio := []
    computeRaises := true, writeRaises := false, now := 100
    errText := "RuntimeError: compute_nav failed" }

/-- Database for the C1 witness, holding one earlier health row. -/
def dbW1 : DBState :=
  { price_snapshots := [], nav_snapshots := [], position_snapshots := []
    recon_log := [], anomaly_log := []
    system_metrics := [{ id := 1, cycle_at := 50, status := "SUCCESS"
                         error_detail := none, ingestion_latency_ms := some 0
                         db_write_latency_ms := some 0
                         total_rows_processed := some 3
                         tickers_succeeded := some 3
                         tickers_failed := some 0 }] }

/-- Witness for C1 on a concrete failing cycle: exactly one new health row,
FAILED with populated error detail. -/
theorem run_refresh_cycle_always_writes_health_witness :
    ∃ m, (run_refresh_cycle envW1 dbW1).system_metrics =
        dbW1.system_metrics ++ [m] ∧
      m.status = "FAILED" ∧ m.error_detail ≠ none :=
  (run_refresh_cycle_always_writes_health envW1 dbW1).elim
    (fun m hm => ⟨m, hm.1, hm.2 (by decide)⟩)

/-- Cycle environment for the C2 witness: the WRITING stage raises. -/
def envW2 : CycleEnv :=
  { tickers := ["AAPL"], beh := fun _ => .raises
    portfolio := [{ ticker := "AAPL", shares := 10, cost_basis := 100
                    asset_class := "equity" }]
    computeRaises := false, writeRaises := true, now := 200
    errText := "sqlite3.OperationalError: disk full" }

/-- Database for the C2 witness, holding one committed earlier cycle. -/
def dbW2 : DBState :=
  { price_snapshots := [{ id := 1, ticker := "AAPL", fetched_at := 20
                          market_time := none, price := 110, volume := none
                          day_open := none, day_high := none, day_low := none
                          prev_close := none, data_source := "yfinance" }]
    nav_snapshots := [{ id := 1, computed_at := 20, total_nav := 1100
                        total_cost := 1000, total_pnl := 100
                        total_pnl_pct := 0 }]
    position_snapshots := [{ id := 1, nav_snapshot_id := 1, ticker := "AAPL"
                             asset_class := "equity", shares := 10, price := 110
                             cost_basis := 100, market_value := 1100
                             unrealized_pnl := 100, pnl_pct := 0, weight := 1 }]
    recon_log := [], anomaly_log := [], system_metrics := [] }

/-- Witness for C2 on a concrete failing cycle over a populated database:
the three snapshot tables are untouched. -/
theorem run_refresh_cycle_rolls_back_witness :
    (run_refresh_cycle envW2 dbW2).price_snapshots = dbW2.price_snapshots ∧
    (run_refresh_cycle envW2 dbW2).nav_snapshots = dbW2.nav_snapshots ∧
    (run_refresh_cycle envW2 dbW2).position_snapshots = dbW2.position_snapshots :=
  run_refresh_cycle_rolls_back envW2 dbW2 (Or.inr (by decide))

/-! C10: idempotence of `create_tables` (src/backend/db.py, lines 13-100).
The executed script is a sequence of `CREATE TABLE IF NOT EXISTS` and
`CREATE INDEX IF NOT EXISTS` statements; the schema state records which
objects exist with their definitions. -/

/-- Definition of one table: its name and column list. -/
structure TableDef where
  name : String
  columns : List String
deriving DecidableEq

/-- Definition of one index: its name, base table and column list. -/
structure IndexDef where
  name : String
  table : String
  columns : List String
deriving DecidableEq

/-- Schema state of the database file. -/
structure Schema where
  tables : List TableDef
  indexes : List IndexDef
deriving DecidableEq

/-- `CREATE TABLE IF NOT EXISTS`: a no-op when a table of that name exists,
otherwise the table is added. -/
def createTableIfNotExists (t : TableDef) (s : Schema) : Schema :=
  if s.tables.any (fun u => u.name == t.name) then s
  else { s with tables := s.tables ++ [t] }

/-- `CREATE INDEX IF NOT EXISTS`: a no-op when an index of that name
exists, otherwise the index is added. -/
def createIndexIfNotExists (i : IndexDef) (s : Schema) : Schema :=
  if s.indexes.any (fun u => u.name == i.name) then s
  else { s with indexes := s.indexes ++ [i] }

/-- `price_snapshots` table definition (src/backend/db.py, lines 16-28). -/
def price_snapshots_table : TableDef :=
  { name := "price_snapshots"
    columns := ["id", "ticker", "fetched_at", "market_time", "price",
                "volume", "day_open", "day_high", "day_low", "prev_close",
                "data_source"] }

/-- `nav_snapshots` table definition (src/backend/db.py, lines 30-37). -/
def nav_snapshots_table : TableDef :=
  { name := "nav_snapshots"
    columns := ["id", "computed_at", "total_nav", "total_cost", "total_pnl",
                "total_pnl_pct"] }

/-- `position_snapshots` table definition (src/backend/db.py, lines 39-51). -/
def position_snapshots_table : TableDef :=
  { name := "position_snapshots"
    columns := ["id", "nav_snapshot_id", "ticker", "asset_class", "shares",
                "price", "cost_basis", "market_value", "unrealized_pnl",
                "pnl_pct", "weight"] }

/-- `recon_log` table definition (src/backend/db.py, lines 53-62). -/
def recon_log_table : TableDef :=
  { name := "recon_log"
    columns := ["id", "checked_at", "check_type", "expected_value",
                "actual_value", "delta_pct", "status", "detail"] }

/-- `anomaly_log` table definition (src/backend/db.py, lines 64-74). -/
def anomaly_log_table : TableDef :=
  { name := "anomaly_log"
    columns := ["id", "detected_at", "ticker", "asset_class", "current_price",
                "prev_close", "move_pct", "zscore", "severity"] }

/-- `system_metrics` table definition (src/backend/db.py, lines 76-86). -/
def system_metrics_table : TableDef :=
  { name := "system_metrics"
    columns := ["id", "cycle_at", "status", "error_detail",
                "ingestion_latency_ms", "db_write_latency_ms",
                "total_rows_processed", "tickers_succeeded",
                "tickers_failed"] }

/-- `idx_price_ticker_time` (src/backend/db.py, lines 88-89). -/
def idx_price_ticker_time : IndexDef :=
  { name := "idx_price_ticker_time", table := "price_snapshots"
    columns := ["ticker", "fetched_at"] }

/-- `idx_nav_time` (src/backend/db.py, lines 91-92). -/
def idx_nav_time : IndexDef :=
  { name := "idx_nav_time", table := "nav_snapshots"
    columns := ["computed_at"] }

/-- `idx_position_nav_id` (src/backend/db.py, lines 94-95). -/
def idx_position_nav_id : IndexDef :=
  { name := "idx_position_nav_id", table := "position_snapshots"
    columns := ["nav_snapshot_id"] }

/-- `idx_system_metrics_time` (src/backend/db.py, lines 97-98). -/
def idx_system_metrics_time : IndexDef :=
  { name := "idx_system_metrics_time", table := "system_metrics"
    columns := ["cycle_at"] }

/-- Embeds `create_tables` (src/backend/db.py, lines 13-100): the
`executescript` runs the six `CREATE TABLE IF NOT EXISTS` and four
`CREATE INDEX IF NOT EXISTS` statements in order. -/
def create_tables (s : Schema) : Schema :=
  createIndexIfNotExists idx_system_metrics_time
    (createIndexIfNotExists idx_position_nav_id
      (createIndexIfNotExists idx_nav_time
        (createIndexIfNotExists idx_price_ticker_time
          (createTableIfNotExists system_metrics_table
            (createTableIfNotExists anomaly_log_table
              (createTableIfNotExists recon_log_table
                (createTableIfNotExists position_snapshots_table
                  (createTableIfNotExists nav_snapshots_table
                    (createTableIfNotExists price_snapshots_table s)))))))))

/-- A table of the given name exists in the schema. -/
def hasTable (s : Schema) (n : String) : Prop :=
  s.tables.any (fun u => u.name == n) = true

/-- An index of the given name exists in the schema. -/
def hasIndex (s : Schema) (n : String) : Prop :=
  s.indexes.any (fun u => u.name == n) = true

lemma hasTable_createTable_self (t : TableDef) (s : Schema) :
    hasTable (createTableIfNotExists t s) t.name := by
  unfold createTableIfNotExists hasTable
  by_cases h : s.tables.any (fun u => u.name == t.name) = true
  · rw [if_pos h]
    exact h
  · rw [if_neg h]
    simp

lemma hasTable_createTable_mono (t : TableDef) {s : Schema} {n : String}
    (h : hasTable s n) : hasTable (createTableIfNotExists t s) n := by
  unfold createTableIfNotExists
  unfold hasTable at h ⊢
  by_cases hc : s.tables.any (fun u => u.name == t.name) = true
  · rw [if_pos hc]
    exact h
  · rw [if_neg hc]
    simp only [List.any_append, h, Bool.true_or]

lemma hasTable_createIndex (i : IndexDef) {s : Schema} {n : String}
    (h : hasTable s n) : hasTable (createIndexIfNotExists i s) n := by
  unfold createIndexIfNotExists
  by_cases hc : s.indexes.any (fun u => u.name == i.name) = true
  · rw [if_pos hc]
    exact h
  · rw [if_neg hc]
    exact h

lemma hasIndex_createIndex_self (i : IndexDef) (s : Schema) :
    hasIndex (createIndexIfNotExists i s) i.name := by
  unfold createIndexIfNotExists hasIndex
  by_cases h : s.indexes.any (fun u => u.name == i.name) = true
  · rw [if_pos h]
    exact h
  · rw [if_neg h]
    simp

lemma hasIndex_createIndex_mono (i : IndexDef) {s : Schema} {n : String}
    (h : hasIndex s n) : hasIndex (createIndexIfNotExists i s) n := by
  unfold createIndexIfNotExists
  unfold hasIndex at h ⊢
  by_cases hc : s.indexes.any (fun u => u.name == i.name) = true
  · rw [if_pos hc]
    exact h
  · rw [if_neg hc]
    simp only [List.any_append, h, Bool.true_or]

lemma hasIndex_createTable (t : TableDef) {s : Schema} {n : String}
    (h : hasIndex s n) : hasIndex (createTableIfNotExists t s) n := by
  unfold createTableIfNotExists
  by_cases hc : s.tables.any (fun u => u.name == t.name) = true
  · rw [if_pos hc]
    exact h
  · rw [if_neg hc]
    exact h

lemma createTable_of_hasTable {t : TableDef} {s : Schema}
    (h : hasTable s t.name) : createTableIfNotExists t s = s := by
  unfold createTableIfNotExists
  exact if_pos h

lemma createIndex_of_hasIndex {i : IndexDef} {s : Schema}
    (h : hasIndex s i.name) : createIndexIfNotExists i s = s := by
  unfold createIndexIfNotExists
  exact if_pos h

/-- After one run of `create_tables` all six tables and all four indexes
exist. -/
lemma create_tables_has (s : Schema) :
    hasTable (create_tables s) price_snapshots_table.name ∧
    hasTable (create_tables s) nav_snapshots_table.name ∧
    hasTable (create_tables s) position_snapshots_table.name ∧
    hasTable (create_tables s) recon_log_table.name ∧
    hasTable (create_tables s) anomaly_log_table.name ∧
    hasTable (create_tables s) system_metrics_table.name ∧
    hasIndex (create_tables s) idx_price_ticker_time.name ∧
    hasIndex (create_tables s) idx_nav_time.name ∧
    hasIndex (create_tables s) idx_position_nav_id.name ∧
    hasIndex (create_tables s) idx_system_metrics_time.name := by
  unfold create_tables
  refine ⟨?_, ?_, ?_, ?_, ?_, ?_, ?_, ?_, ?_, ?_⟩
  · exact hasTable_createIndex _ (hasTable_createIndex _ (hasTable_createIndex _
      (hasTable_createIndex _ (hasTable_createTable_mono _
      (hasTable_createTable_mono _ (hasTable_createTable_mono _
      (hasTable_createTable_mono _ (hasTable_createTable_mono _
      (hasTable_createTable_self price_snapshots_table s)))))))))
  · exact hasTable_createIndex _ (hasTable_createIndex _ (hasTable_createIndex _
      (hasTable_createIndex _ (hasTable_createTable_mono _
      (hasTable_createTable_mono _ (hasTable_createTable_mono _
      (hasTable_createTable_mono _
      (hasTable_createTable_self nav_snapshots_table _))))))))
  · exact hasTable_createIndex _ (hasTable_createIndex _ (hasTable_createIndex _
      (hasTable_createIndex _ (hasTable_createTable_mono _
      (hasTable_createTable_mono _ (hasTable_createTable_mono _
      (hasTable_createTable_self position_snapshots_table _)))))))
  · exact hasTable_createIndex _ (hasTable_createIndex _ (hasTable_createIndex _
      (hasTable_createIndex _ (hasTable_createTable_mono _
      (hasTable_createTable_mono _
      (hasTable_createTable_self recon_log_table _))))))
  · exact hasTable_createIndex _ (hasTable_createIndex _ (hasTable_createIndex _
      (hasTable_createIndex _ (hasTable_createTable_mono _
      (hasTable_createTable_self anomaly_log_table _)))))
  · exact hasTable_createIndex _ (hasTable_createIndex _ (hasTable_createIndex _
      (hasTable_createIndex _ (hasTable_createTable_self system_metrics_table _))))
  · exact hasIndex_createIndex_mono _ (hasIndex_createIndex_mono _
      (hasIndex_createIndex_mono _ (hasIndex_createIndex_self idx_price_ticker_time _)))
  · exact hasIndex_createIndex_mono _ (hasIndex_createIndex_mono _
      (hasIndex_createIndex_self idx_nav_time _))
  · exact hasIndex_createIndex_mono _ (hasIndex_createIndex_self idx_position_nav_id _)
  · exact hasIndex_createIndex_self idx_system_metrics_time _

/-- C10: `create_tables` is idempotent — a second run on a schema that
already has the six tables and four indexes changes nothing (`IF NOT
EXISTS` makes each statement a no-op, so the run also succeeds without
error), leaving the schema identical to the one after a single run. -/
theorem create_tables_idempotent (s : Schema) :
    create_tables (create_tables s) = create_tables s := by
  obtain ⟨h1, h2, h3, h4, h5, h6, h7, h8, h9, h10⟩ := create_tables_has s
  show createIndexIfNotExists idx_system_metrics_time
      (createIndexIfNotExists idx_position_nav_id
        (createIndexIfNotExists idx_nav_time
          (createIndexIfNotExists idx_price_ticker_time
            (createTableIfNotExists system_metrics_table
              (createTableIfNotExists anomaly_log_table
                (createTableIfNotExists recon_log_table
                  (createTableIfNotExists position_snapshots_table
                    (createTableIfNotExists nav_snapshots_table
                      (createTableIfNotExists price_snapshots_table
                        (create_tables s)))))))))) = create_tables s
  rw [createTable_of_hasTable h1, createTable_of_hasTable h2,
    createTable_of_hasTable h3, createTable_of_hasTable h4,
    createTable_of_hasTable h5, createTable_of_hasTable h6,
    createIndex_of_hasIndex h7, createIndex_of_hasIndex h8,
    createIndex_of_hasIndex h9, createIndex_of_hasIndex h10]

end PortfolioOps
